import Mathlib

/-!
Verification development for `google_maps_update_checker` (`src/main.py`).

The Python module is shallowly embedded: pure string manipulation becomes
Lean functions on `String`; the OpenCV pixel comparison becomes a function
on decoded pixel grids; the stateful orchestration (`update_images`, `main`)
becomes explicit state passing over a `World` record, with network fetches
and image decoding supplied as oracles in an `Env` record; Python exceptions
become `Except` errors carrying the world at the moment of the raise.
-/

namespace MapsChecker



/-- File contents (`bytes` in Python) as a list of byte values. -/
abbrev Bytes := List Nat

/-- A decoded image as `cv2.imread` yields it: a `rows × cols × channels`
numpy array of unsigned byte values, flattened row-major into `pix`. -/
structure Image where
  rows : Nat
  cols : Nat
  channels : Nat
  pix : List Nat
  hlen : pix.length = rows * cols * channels

/-- `format_filename` (src/main.py:99): `f"{lat}_{long}"` with `"."`
replaced by `"_"`. Inputs are the textual renderings of the coordinates
(Python interpolates `str | float` into the f-string). A single-character
`str.replace` is exactly a per-character substitution. -/
def dotToUnderscore (c : Char) : Char := if c = '.' then '_' else c

/-- Second substitution of `format_filename`: `"-"` replaced by `"n"`. -/
def dashToN (c : Char) : Char := if c = '-' then 'n' else c

/-- `format_filename` (src/main.py:99-101):
`f"{lat}_{long}".replace(".", "_").replace("-", "n") + ".jpg"`. -/
def format_filename (lat long : String) : String :=
  String.mk (((lat.data ++ '_' :: long.data).map dotToUnderscore).map dashToN) ++ ".jpg"

/-- Shape agreement check performed by `cv2.absdiff`: the two arrays must
have the same dimensions and channel count (src/main.py:127). -/
def sameShape (a b : Image) : Bool :=
  a.rows == b.rows && a.cols == b.cols && a.channels == b.channels

/-- A Mat that OpenCV's `checkScalar` accepts as a scalar operand on the
strength of its size alone: a 1×1 grid (`sz == Size(1,1)`). The other
`checkScalar` clauses all require a single-channel operand, which
`cv2.imread` (always 3-channel here) never produces. -/
def scalarLike (s : Image) : Bool := s.rows == 1 && s.cols == 1

/-- Per-element absolute differences of an array operand `arr` against a
1×1 scalar operand `sc` of the same channel count: OpenCV broadcasts the
scalar's channel values across the array, and flat index `i` of the
row-major layout lies in channel `i % channels`. -/
def absdiffScalar (arr sc : Image) : List Nat :=
  (List.range arr.pix.length).map
    (fun i => Nat.dist (arr.pix.getD i 0) (sc.pix.getD (i % sc.channels) 0))

/-- `images_are_a_match` (src/main.py:121-128) on the two decode results
(`cv2.imread` returns `None` on a missing or undecodable file).
Returns `.ok false` when either image failed to load; otherwise computes
`cv2.absdiff` and compares it with an all-zero array of the same shape.
`cv2.absdiff` is array-op-array when the shapes agree; when they disagree
it broadcasts a 1×1 operand as a scalar (first operand checked first, as
in OpenCV's `arithm_op`) and raises `cv2.error` (modelled as `.error ()`)
only when neither operand qualifies. The model is faithful on operands of
equal channel count — the reachable domain, since `cv2.imread` always
yields 3-channel grids; mixed channel counts are not modelled and no
theorem below touches them. -/
def images_are_a_match (img1 img2 : Option Image) : Except Unit Bool :=
  match img1, img2 with
  | none, _ => .ok false
  | some _, none => .ok false
  | some a, some b =>
    if sameShape a b then
      .ok ((List.zipWith Nat.dist a.pix b.pix).all (fun d => d == 0))
    else if scalarLike a && a.channels == b.channels then
      .ok ((absdiffScalar b a).all (fun d => d == 0))
    else if scalarLike b && a.channels == b.channels then
      .ok ((absdiffScalar a b).all (fun d => d == 0))
    else
      .error ()

/-- A registry record from `images.json`: keys `lat`, `long`, `name` are
always read (src/main.py:155-156, 166), `zoom` is optional with default 17
(src/main.py:157), and `last_pulled` / `last_changed` are written by
`update_images` (src/main.py:161, 165). Coordinates are kept as their
textual renderings (the script only ever interpolates them into strings);
timestamps from `datetime.now().isoformat()` are modelled as readings of a
monotone counter. -/
structure LocationEntry where
  lat : String
  long : String
  zoom : Option Int
  name : String
  last_pulled : Option Nat
  last_changed : Option Nat
deriving DecidableEq, Repr

/-- One row of the `updates` list built by `update_images`
(src/main.py:166-170): a dict with keys `Name`, `Location`, `Status`,
`old_image`, `new_image`. -/
structure UpdateResult where
  Name : String
  Location : String
  Status : String
  old_image : String
  new_image : String
deriving DecidableEq, Repr

/-- The two image directories, `OLD_IMAGES` and `NEW_IMAGES`
(src/main.py:78-79). -/
inductive StoreDir where
  | oldDir
  | newDir
deriving DecidableEq, Repr

/-- Observable side effects of one run: HTTP fetches issued by
`download_image` and image-file writes by `save_image`. -/
inductive Effect where
  | fetchCall (lat long : String) (zoom : Int)
  | fileWrite (dir : StoreDir) (filename : String)
deriving DecidableEq, Repr

/-- One rendered `image-pair` div of the HTML report (src/main.py:219-223):
two base64-embedded images and a caption. -/
structure Section where
  oldSrc : Option String
  newSrc : Option String
  caption : String
deriving DecidableEq, Repr

/-- The mutable state a run touches: the two image directories (association
lists keyed by filename, newest binding first), the registry file
`images.json` (`none` = absent), the HTML report file (`none` = not
written), a monotone clock supplying `datetime.now()` readings, and the
trace of fetches and image writes. -/
structure World where
  oldImages : List (String × Bytes)
  newImages : List (String × Bytes)
  registryFile : Option (List LocationEntry)
  htmlOutput : Option (List Section)
  clock : Nat
  trace : List Effect
deriving DecidableEq, Repr

/-- External collaborators, supplied as oracles: the HTTP GET of
`download_image` (keyed by the data interpolated into `TEMPLATE_URL`;
`.error ()` is a `requests` exception or a non-success status raised by
`raise_for_status`), the `cv2.imread` decoder on file contents, the
base64 encoder, and the outcome of `google_key_loaded`. -/
structure Env where
  fetch : String → String → Int → Except Unit Bytes
  decode : Bytes → Option Image
  b64 : Bytes → String
  keyOk : Bool

/-- Path of a filename inside `OLD_IMAGES` (`old_image.absolute()` is
modelled as this path string). -/
def oldDirPath (f : String) : String := "old_images/" ++ f

/-- Path of a filename inside `NEW_IMAGES`. -/
def newDirPath (f : String) : String := "new_images/" ++ f

/-- `download_image` (src/main.py:110-118): issue the GET (recorded in the
trace), propagate a transport error or a non-success status as an
exception, otherwise save the body under `NEW_IMAGES / format_filename`
and return that path's filename. -/
def download_image (env : Env) (lat long : String) (zoom : Int) (w : World) :
    Except World (String × World) :=
  let w1 : World := { w with trace := w.trace ++ [Effect.fetchCall lat long zoom] }
  match env.fetch lat long zoom with
  | .error _ => .error w1
  | .ok content =>
    let fname := format_filename lat long
    .ok (fname, { w1 with newImages := (fname, content) :: w1.newImages,
                          trace := w1.trace ++ [Effect.fileWrite StoreDir.newDir fname] })

/-- The body of the `for entry in metadata` loop of `update_images`
(src/main.py:154-170), for one entry: fetch the candidate, stamp
`last_pulled`, then decide `New` / `Changed` / `Unchanged`. The `or` in
`if not old_image.exists() or not images_are_a_match(...)` short-circuits,
so the comparator only runs when the reference file exists; a `cv2.error`
raised by the comparator propagates. -/
def processEntry (env : Env) (e : LocationEntry) (w : World) :
    Except World (UpdateResult × LocationEntry × World) :=
  let lat := e.lat
  let long := e.long
  let zoom := e.zoom.getD 17
  match download_image env lat long zoom w with
  | .error w1 => .error w1
  | .ok (fname, w2) =>
  let e1 : LocationEntry := { e with last_pulled := some w2.clock }
  let w3 : World := { w2 with clock := w2.clock + 1 }
  let newBytes := (List.lookup fname w3.newImages).getD []
  match List.lookup fname w3.oldImages with
  | none =>
    let w4 : World := { w3 with oldImages := (fname, newBytes) :: w3.oldImages,
                                trace := w3.trace ++ [Effect.fileWrite StoreDir.oldDir fname] }
    let e2 : LocationEntry := { e1 with last_changed := some w4.clock }
    let w5 : World := { w4 with clock := w4.clock + 1 }
    .ok ({ Name := e.name, Location := lat ++ ", " ++ long, Status := "New",
           old_image := oldDirPath fname, new_image := newDirPath fname }, e2, w5)
  | some oldBytes =>
    match images_are_a_match (env.decode oldBytes) (env.decode newBytes) with
    | .error _ => .error w3
    | .ok true =>
      .ok ({ Name := e.name, Location := lat ++ ", " ++ long, Status := "Unchanged",
             old_image := oldDirPath fname, new_image := newDirPath fname }, e1, w3)
    | .ok false =>
      let w4 : World := { w3 with oldImages := (fname, newBytes) :: w3.oldImages,
                                  trace := w3.trace ++ [Effect.fileWrite StoreDir.oldDir fname] }
      let e2 : LocationEntry := { e1 with last_changed := some w4.clock }
      let w5 : World := { w4 with clock := w4.clock + 1 }
      .ok ({ Name := e.name, Location := lat ++ ", " ++ long, Status := "Changed",
             old_image := oldDirPath fname, new_image := newDirPath fname }, e2, w5)

/-- The `for entry in metadata` loop of `update_images` (src/main.py:154):
process the entries in order, collecting one result and one mutated entry
per processed location; the first exception aborts the remainder. -/
def processEntries (env : Env) : List LocationEntry → World →
    Except World (List UpdateResult × List LocationEntry × World)
  | [], w => .ok ([], [], w)
  | e :: rest, w =>
    match processEntry env e w with
    | .error w1 => .error w1
    | .ok (r, e1, w1) =>
      match processEntries env rest w1 with
      | .error w2 => .error w2
      | .ok (rs, es, w2) => .ok (r :: rs, e1 :: es, w2)

/-- `update_images` (src/main.py:148-171). `if not metadata: return updates`
returns the empty list both for `None` and for `[]`; for `[]` the loop body
never executes, so folding both through `processEntries` (which is the
identity on `[]`) is exact. The mutated metadata list is returned alongside
the `updates` list to model the in-place mutation of the entry dicts. -/
def update_images (env : Env) (metadata : Option (List LocationEntry)) (w : World) :
    Except World (List UpdateResult × Option (List LocationEntry) × World) :=
  match metadata with
  | none => .ok ([], none, w)
  | some l =>
    match processEntries env l w with
    | .error w1 => .error w1
    | .ok (rs, es, w1) => .ok (rs, some es, w1)

/-- The template written by `load_metadata` when `images.json` is absent
(src/main.py:85-96, 138-139). -/
def JSON_TEMPLATE : List LocationEntry :=
  [{ lat := "0", long := "0", zoom := some 10, name := "Location 1",
     last_pulled := none, last_changed := none },
   { lat := "0", long := "0", zoom := some 10, name := "Location 2",
     last_pulled := none, last_changed := none }]

/-- Read the bytes a path denotes, resolving the two store directories. -/
def fileBytes (w : World) (p : String) : Option Bytes :=
  if p.startsWith "old_images/" then List.lookup (p.drop 11) w.oldImages
  else if p.startsWith "new_images/" then List.lookup (p.drop 11) w.newImages
  else none

/-- The dict an entry carries when the Jinja template runs
(src/main.py:196-199): the five keys of the `updates` row plus the two
base64 keys `generate_html` adds before rendering. (`image_to_base64` of a
missing file would raise; in every reachable call both image files exist,
so the `Option.getD` default is never the value used.) -/
def htmlDict (env : Env) (w : World) (r : UpdateResult) : List (String × String) :=
  [("Name", r.Name), ("Location", r.Location), ("Status", r.Status),
   ("old_image", r.old_image), ("new_image", r.new_image),
   ("old_image_base64", env.b64 ((fileBytes w r.old_image).getD [])),
   ("new_image_base64", env.b64 ((fileBytes w r.new_image).getD []))]

/-- The value Jinja resolves for `entry.status` in the template condition
`{% if entry.status == 'Changed' %}` (src/main.py:218): a Python dict has
no `status` attribute, so attribute lookup falls back to the item lookup
`entry["status"]`; `none` models Jinja's `Undefined`, which compares
unequal to any string. -/
def jinjaStatus (env : Env) (w : World) (r : UpdateResult) : Option String :=
  List.lookup "status" (htmlDict env w r)

/-- `generate_html` (src/main.py:194-235), abstracted to the list of
`image-pair` sections the rendered page contains: one per entry passing the
template's `entry.status == 'Changed'` test, holding the two
base64-embedded images and the `Name (Location)` caption. -/
def generate_html (env : Env) (w : World) (updates : List UpdateResult) : List Section :=
  (updates.filter (fun r => jinjaStatus env w r == some "Changed")).map
    (fun r => { oldSrc := (fileBytes w r.old_image).map env.b64,
                newSrc := (fileBytes w r.new_image).map env.b64,
                caption := r.Name ++ " (" ++ r.Location ++ ")" })

/-- `main` (src/main.py:238-248): abort before any fetch when the API key
is missing or malformed (`google_key_loaded`'s write of a placeholder
`.env` file is outside the modelled state); when `images.json` is absent,
`load_metadata` writes the template and returns `None`, so `update_images`
returns `[]` and nothing is saved; otherwise run the pass, and only when
`updates` is non-empty save the mutated metadata and write the HTML
report. An exception from the pass propagates out of `main`. -/
def main (env : Env) (w : World) : Except World World :=
  if env.keyOk then
    match w.registryFile with
    | none =>
      let wt : World := { w with registryFile := some JSON_TEMPLATE }
      match update_images env none wt with
      | .error w1 => .error w1
      | .ok (updates, ms, w1) =>
        if updates.isEmpty then .ok w1
        else .ok { w1 with registryFile := ms,
                           htmlOutput := some (generate_html env w1 updates) }
    | some ms0 =>
      match update_images env (some ms0) w with
      | .error w1 => .error w1
      | .ok (updates, ms, w1) =>
        if updates.isEmpty then .ok w1
        else .ok { w1 with registryFile := ms,
                           htmlOutput := some (generate_html env w1 updates) }
  else .ok w

/-! ### Concrete scenarios used by counterexamples and witnesses -/

/-- Candidate bytes returned by the stub fetcher. -/
def bytesA : Bytes := [1]

/-- Alternative stored bytes for reference images. -/
def bytesB : Bytes := [2]

/-- A 1×1 3-channel decoded image. -/
def imgA : Image := ⟨1, 1, 3, [9, 9, 9], rfl⟩

/-- A second 1×1 3-channel decoded image, differing from `imgA`. -/
def imgB : Image := ⟨1, 1, 3, [0, 0, 0], rfl⟩

/-- A 2×1 3-channel decoded image (shape differs from `imgA`). -/
def imgC : Image := ⟨2, 1, 3, [9, 9, 9, 9, 9, 9], rfl⟩

/-- A 2×2 3-channel decoded image; not a scalar operand. -/
def imgD : Image := ⟨2, 2, 3, [9, 9, 9, 9, 9, 9, 9, 9, 9, 9, 9, 9], rfl⟩

/-- A 3×2 3-channel decoded image; not a scalar operand, and its
dimensions disagree with `imgD`. -/
def imgE : Image :=
  ⟨3, 2, 3, [9, 9, 9, 9, 9, 9, 9, 9, 9, 9, 9, 9, 9, 9, 9, 9, 9, 9], rfl⟩

/-- A tracked location at coordinates "5", "6" with no zoom key. -/
def eLoc : LocationEntry :=
  { lat := "5", long := "6", zoom := none, name := "Loc",
    last_pulled := none, last_changed := none }

/-- A world whose registry tracks `eLoc` and whose stores are empty. -/
def wEmpty : World :=
  { oldImages := [], newImages := [], registryFile := some [eLoc],
    htmlOutput := none, clock := 0, trace := [] }

/-- A world where `eLoc`'s reference image exists with the candidate's own
bytes (so the comparison reports a match). -/
def wSame : World :=
  { wEmpty with oldImages := [(format_filename "5" "6", bytesA)] }

/-- A world where `eLoc`'s reference image exists with different bytes. -/
def wDiff : World :=
  { wEmpty with oldImages := [(format_filename "5" "6", bytesB)] }

/-- Environment whose fetch always succeeds with `bytesA` and whose decoder
decodes `bytesA` to `imgA` and `bytesB` to `imgB`. -/
def envSame : Env :=
  { fetch := fun _ _ _ => .ok bytesA,
    decode := fun b => if b == bytesA then some imgA else
                       if b == bytesB then some imgB else none,
    b64 := fun _ => "b64", keyOk := true }

/-- Environment whose fetch always succeeds with `bytesA`, decoding the
candidate `bytesA` to the 2×2×3 grid `imgD` and a stored `bytesB`
reference to the 3×2×3 grid `imgE` — neither operand is a 1×1 scalar, so
their comparison raises. -/
def envShape : Env :=
  { fetch := fun _ _ _ => .ok bytesA,
    decode := fun b => if b == bytesA then some imgD else
                       if b == bytesB then some imgE else none,
    b64 := fun _ => "b64", keyOk := true }

/-- Environment whose fetch always fails. -/
def envFail : Env :=
  { fetch := fun _ _ _ => .error (),
    decode := fun _ => none, b64 := fun _ => "b64", keyOk := true }

/-! ### C8: determinism and injectivity of the filename mapping -/

/-- The combined per-character substitution performed by the two
`str.replace` calls of `format_filename`. -/
def subst (c : Char) : Char := dashToN (dotToUnderscore c)

/-- A coordinate rendering in the domain where the filename mapping is
injective: exactly one decimal point, and none of the characters that the
substitutions introduce (`_` and `n`). Python's rendering of any ordinary
(non-scientific) float has this form. -/
def goodCoord (s : String) : Prop :=
  s.data.count '.' = 1 ∧ '_' ∉ s.data ∧ 'n' ∉ s.data

instance : DecidablePred goodCoord := fun s => by
  unfold goodCoord; infer_instance

/-! ### Structural lemmas about one pass of the orchestrator -/

/-- The trace of a processing step's outcome, successful or not. -/
def resultTrace (x : Except World (UpdateResult × LocationEntry × World)) : List Effect :=
  match x with
  | .error w => w.trace
  | .ok (_, _, w) => w.trace

/-- The result row describes its entry: the `Name` and `Location` columns
are built from the entry's `name`, `lat` and `long`. -/
def resultMatches (e : LocationEntry) (r : UpdateResult) : Prop :=
  r.Name = e.name ∧ r.Location = e.lat ++ ", " ++ e.long

/-- The pass only writes the two timestamp fields of an entry. -/
def entryPreserved (e e1 : LocationEntry) : Prop :=
  e1.lat = e.lat ∧ e1.long = e.long ∧ e1.zoom = e.zoom ∧ e1.name = e.name

/-! ### Further concrete run outcomes -/

/-- The result row of the `Unchanged` run of `eLoc` in `wSame`. -/
def rUnch : UpdateResult :=
  { Name := "Loc", Location := "5, 6", Status := "Unchanged",
    old_image := "old_images/5_6.jpg", new_image := "new_images/5_6.jpg" }

/-- `eLoc` after the `Unchanged` run: only `last_pulled` stamped. -/
def eUnch : LocationEntry := { eLoc with last_pulled := some 0 }

/-- The world after the `Unchanged` run of `eLoc` in `wSame`. -/
def wUnch : World :=
  { oldImages := [("5_6.jpg", bytesA)], newImages := [("5_6.jpg", bytesA)],
    registryFile := some [eLoc], htmlOutput := none, clock := 1,
    trace := [Effect.fetchCall "5" "6" 17, Effect.fileWrite StoreDir.newDir "5_6.jpg"] }

/-- The result row of the `New` run of `eLoc` in `wEmpty`. -/
def rNew : UpdateResult := { rUnch with Status := "New" }

/-- `eLoc` after the `New` run: both timestamps stamped. -/
def eNew : LocationEntry := { eLoc with last_pulled := some 0, last_changed := some 1 }

/-- The world after the `New` run of `eLoc` in `wEmpty`. -/
def wNew : World :=
  { oldImages := [("5_6.jpg", bytesA)], newImages := [("5_6.jpg", bytesA)],
    registryFile := some [eLoc], htmlOutput := none, clock := 2,
    trace := [Effect.fetchCall "5" "6" 17, Effect.fileWrite StoreDir.newDir "5_6.jpg",
              Effect.fileWrite StoreDir.oldDir "5_6.jpg"] }

/-- `eLoc` with an explicit zoom of `0` in the registry. -/
def eZoom0 : LocationEntry := { eLoc with zoom := some 0 }

/-! ## Sanity examples, lemmas and claim theorems -/

example : format_filename "59.33" "18.06" = "59_33_18_06.jpg" := by decide

example : format_filename "-1.0" "2.0" = "n1_0_2_0.jpg" := by decide

example : format_filename "1.2" "34" = "1_2_34.jpg" := by decide

example : format_filename "1" "2.34" = "1_2_34.jpg" := by decide

example :
    images_are_a_match (some ⟨1, 1, 1, [5], rfl⟩) (some ⟨1, 1, 1, [5], rfl⟩) = .ok true := rfl

example :
    images_are_a_match (some ⟨1, 1, 1, [5], rfl⟩) (some ⟨1, 1, 1, [6], rfl⟩) = .ok false := rfl

example : images_are_a_match none (some ⟨1, 1, 1, [5], rfl⟩) = .ok false := rfl

example :
    images_are_a_match (some ⟨1, 1, 1, [5], rfl⟩) (some ⟨2, 1, 1, [5, 5], rfl⟩) = .ok true := rfl

example :
    images_are_a_match (some ⟨2, 1, 1, [5, 5], rfl⟩) (some ⟨3, 1, 1, [5, 5, 6], rfl⟩) =
      .error () := rfl

example :
    (match processEntry envSame eLoc wSame with
     | .ok (r, _, _) => r.Status | .error _ => "ERR") = "Unchanged" := rfl

example :
    (match processEntry envSame eLoc wEmpty with
     | .ok (r, e1, _) => (r.Status, e1.last_pulled, e1.last_changed)
     | .error _ => ("ERR", none, none)) = ("New", some 0, some 1) := rfl

example :
    (match processEntry envSame eLoc wDiff with
     | .ok (r, e1, _) => (r.Status, e1.last_pulled, e1.last_changed)
     | .error _ => ("ERR", none, none)) = ("Changed", some 0, some 1) := rfl

example : (processEntry envShape eLoc wDiff).isOk = false := rfl

example :
    (match main envSame wSame with
     | .ok w1 => w1.registryFile | .error _ => none) =
      some [{ eLoc with last_pulled := some 0 }] := rfl

/-! ### C2: the comparator verdict on equal-shape decoded images -/

/-- C2: for every pair of images that decode into pixel grids of equal
shape, `images_are_a_match` reports them identical (returns `.ok true`)
exactly when every per-pixel absolute difference across all channels is
zero — so it reports `false` whenever any pixel differs in any channel —
and, as a corollary, comparing a decodable image with itself always yields
the identical verdict. -/
theorem images_are_a_match_identical_iff :
    (∀ a b : Image, a.rows = b.rows → a.cols = b.cols → a.channels = b.channels →
      (images_are_a_match (some a) (some b) = .ok true ↔
        ∀ d ∈ List.zipWith Nat.dist a.pix b.pix, d = 0)) ∧
    (∀ a : Image, images_are_a_match (some a) (some a) = .ok true) := by
  constructor
  · intro a b h1 h2 h3
    have hs : sameShape a b = true := by simp [sameShape, h1, h2, h3]
    simp [images_are_a_match, hs, List.all_eq_true]
  · intro a
    have hs : sameShape a a = true := by simp [sameShape]
    simp [images_are_a_match, hs, List.all_eq_true, List.zipWith_same, Nat.dist_self]

/-- Witness for C2 at a concrete image. -/
theorem images_are_a_match_identical_iff_witness :
    images_are_a_match (some imgA) (some imgA) = .ok true :=
  (images_are_a_match_identical_iff.1 imgA imgA rfl rfl rfl).mpr (by decide)

/-! ### C4: totality of the comparison -/

/-- C4 counterexample: two images that both decode — here the 2×2×3 grid
`imgD` and the 3×2×3 grid `imgE`, neither of which is a 1×1 Mat that
OpenCV would broadcast as a scalar — but whose dimensions disagree make
`images_are_a_match` raise (`cv2.absdiff` throws `cv2.error`), rather
than returning a "different" verdict — refuting the claim that the
comparison is total and never errors. -/
theorem images_are_a_match_total_counterexample :
    images_are_a_match (some imgD) (some imgE) = Except.error () := rfl

/-- C4 amended: when either image fails to decode the comparator does
return the non-identical verdict without erroring; but the comparison is
not total on decodable pairs of mismatched dimensions: it raises when
neither operand is a 1×1 grid (shown at the 3×2×3 grid `imgE` against the
2×2×3 grid `imgD`), while a 1×1 operand is instead broadcast as a scalar
and yields a verdict (shown at the 2×1×3 grid `imgC` against the 1×1×3
grid `imgA`, whose pixels coincide channel-wise). -/
theorem images_are_a_match_amended :
    (∀ img2, images_are_a_match none img2 = .ok false) ∧
    (∀ a, images_are_a_match (some a) none = .ok false) ∧
    images_are_a_match (some imgE) (some imgD) = Except.error () ∧
    images_are_a_match (some imgC) (some imgA) = .ok true :=
  ⟨fun img2 => by cases img2 <;> rfl, fun _ => rfl, rfl, rfl⟩

/-- `format_filename` via the single combined substitution. -/
lemma format_filename_eq_subst (lat long : String) :
    format_filename lat long =
      String.mk ((lat.data ++ '_' :: long.data).map subst) ++ ".jpg" := by
  simp only [format_filename, List.map_map]
  rfl

/-- `subst` sends a character other than `_` to `_` exactly when that
character is the decimal point. -/
lemma subst_eq_underscore {c : Char} (hc : c ≠ '_') : subst c = '_' ↔ c = '.' := by
  by_cases p : c = '.'
  · simp [p, subst, dotToUnderscore, dashToN]
  · simp only [subst, dotToUnderscore, dashToN, if_neg p]
    by_cases r : c = '-'
    · simp [r]
    · simp [r, p, hc]

/-- Underscores in the substituted string count the decimal points of an
underscore-free original. -/
lemma count_underscore_map_subst :
    ∀ l : List Char, '_' ∉ l → (l.map subst).count '_' = l.count '.' := by
  intro l
  induction l with
  | nil => intro _; rfl
  | cons c t ih =>
    intro h
    have hc : c ≠ '_' := fun hx => h (hx ▸ List.mem_cons_self c t)
    have ht : '_' ∉ t := fun hx => h (List.mem_cons_of_mem c hx)
    by_cases p : c = '.'
    · have hs : subst c = '_' := (subst_eq_underscore hc).mpr p
      have hdot : subst '.' = '_' := rfl
      simp [List.count_cons, ih ht, hs, hdot, p]
    · have hs : subst c ≠ '_' := fun hx => p ((subst_eq_underscore hc).mp hx)
      have hs' : ('_' : Char) ≠ subst c := fun hx => hs hx.symm
      have hp : ('.' : Char) ≠ c := fun hx => p hx.symm
      simp [List.count_cons, ih ht, hs', hp]

/-- Splitting at a separator is unambiguous when the prefixes carry the
same number of separator characters. -/
lemma append_cons_sep_inj (c : Char) :
    ∀ (A A' B B' : List Char), A ++ c :: B = A' ++ c :: B' →
      A.count c = A'.count c → A = A' ∧ B = B' := by
  intro A
  induction A with
  | nil =>
    intro A' B B' h hcnt
    cases A' with
    | nil => simpa using h
    | cons a t =>
      simp only [List.nil_append, List.cons_append, List.cons.injEq] at h
      rw [← h.1] at hcnt
      simp [List.count_cons] at hcnt
  | cons a A ih =>
    intro A' B B' h hcnt
    cases A' with
    | nil =>
      simp only [List.nil_append, List.cons_append, List.cons.injEq] at h
      rw [h.1] at hcnt
      simp [List.count_cons] at hcnt
    | cons a' A'' =>
      simp only [List.cons_append, List.cons.injEq] at h
      obtain ⟨rfl, h2⟩ := h
      have hc : A.count c = A''.count c := by
        by_cases hac : a = c <;> simp [List.count_cons, hac] at hcnt ⊢ <;> omega
      obtain ⟨rfl, rfl⟩ := ih A'' B B' h2 hc
      exact ⟨rfl, rfl⟩

/-- `subst` is injective away from its two target characters. -/
lemma subst_inj_chars :
    ∀ c c' : Char, c ≠ '_' → c ≠ 'n' → c' ≠ '_' → c' ≠ 'n' →
      subst c = subst c' → c = c' := by
  intro c c' h1 h2 h3 h4 he
  by_cases p : c = '.'
  · by_cases q : c' = '.'
    · rw [p, q]
    · simp only [subst, dotToUnderscore, dashToN, if_pos p, if_neg q] at he
      by_cases r : c' = '-' <;> simp [r] at he
      exact absurd he.symm h3
  · by_cases q : c' = '.'
    · simp only [subst, dotToUnderscore, dashToN, if_neg p, if_pos q] at he
      by_cases r : c = '-' <;> simp [r] at he
      exact absurd he h1
    · simp only [subst, dotToUnderscore, dashToN, if_neg p, if_neg q] at he
      by_cases r : c = '-' <;> by_cases s : c' = '-' <;> simp [r, s] at he
      · rw [r, s]
      · exact absurd he.symm h4
      · exact absurd he h2
      · exact he

/-- `List.map subst` is injective on character lists avoiding `_` and `n`. -/
lemma map_subst_inj :
    ∀ A A' : List Char, '_' ∉ A → 'n' ∉ A → '_' ∉ A' → 'n' ∉ A' →
      A.map subst = A'.map subst → A = A' := by
  intro A
  induction A with
  | nil =>
    intro A' _ _ _ _ h
    cases A' with
    | nil => rfl
    | cons _ _ => simp at h
  | cons c t ih =>
    intro A' h1 h2 h3 h4 h
    cases A' with
    | nil => simp at h
    | cons c' t' =>
      simp only [List.map_cons, List.cons.injEq] at h
      simp only [List.mem_cons, not_or] at h1 h2 h3 h4
      rw [subst_inj_chars c c' (fun hx => h1.1 hx.symm) (fun hx => h2.1 hx.symm)
            (fun hx => h3.1 hx.symm) (fun hx => h4.1 hx.symm) h.1,
          ih t' h1.2 h2.2 h3.2 h4.2 h.2]

/-- C8 counterexample: the filename mapping is not injective over all
coordinate pairs — the distinct pairs `("1.2", "34")` and `("1", "2.34")`
(a latitude or longitude rendered without a decimal point, as in the
shipped template's `"0"`) collide on `"1_2_34.jpg"`, because the decimal
point and the separator are both encoded as `_`. -/
theorem format_filename_injective_counterexample :
    format_filename "1.2" "34" = format_filename "1" "2.34" ∧
    ("1.2", "34") ≠ (("1", "2.34") : String × String) :=
  ⟨rfl, by decide⟩

/-- C8 amended: `format_filename` is deterministic (it is a pure function
of its arguments), maps `(59.33, 18.06)` to `"59_33_18_06.jpg"` and
`(-1.0, 2.0)` to `"n1_0_2_0.jpg"`, and is injective on coordinate pairs
whose renderings each contain exactly one decimal point and no `_` or `n`
characters — the form every ordinary float rendering has; injectivity can
fail outside this domain (see the counterexample). -/
theorem format_filename_amended :
    (∀ a b : String, format_filename a b = format_filename a b) ∧
    format_filename "59.33" "18.06" = "59_33_18_06.jpg" ∧
    format_filename "-1.0" "2.0" = "n1_0_2_0.jpg" ∧
    (∀ a b a' b' : String, goodCoord a → goodCoord b → goodCoord a' → goodCoord b' →
      format_filename a b = format_filename a' b' → a = a' ∧ b = b') := by
  refine ⟨fun _ _ => rfl, by decide, by decide, ?_⟩
  intro a b a' b' ha hb ha' hb' h
  rw [format_filename_eq_subst, format_filename_eq_subst] at h
  have hdata := congrArg String.data h
  simp only [String.data_append] at hdata
  have hmk : ((a.data ++ '_' :: b.data).map subst) =
      ((a'.data ++ '_' :: b'.data).map subst) :=
    List.append_cancel_right hdata
  simp only [List.map_append, List.map_cons] at hmk
  have hsep : subst '_' = '_' := rfl
  rw [hsep] at hmk
  have hcnt : (a.data.map subst).count '_' = (a'.data.map subst).count '_' := by
    rw [count_underscore_map_subst a.data ha.2.1,
        count_underscore_map_subst a'.data ha'.2.1, ha.1, ha'.1]
  obtain ⟨hA, hB⟩ := append_cons_sep_inj '_' _ _ _ _ hmk hcnt
  constructor
  · exact String.ext (map_subst_inj a.data a'.data ha.2.1 ha.2.2 ha'.2.1 ha'.2.2 hA)
  · exact String.ext (map_subst_inj b.data b'.data hb.2.1 hb.2.2 hb'.2.1 hb'.2.2 hB)

/-- Witness for C8's amended theorem: the injectivity hypotheses are
satisfiable at the spec's own example coordinates. -/
theorem format_filename_amended_witness :
    ("59.33" : String) = "59.33" ∧ ("18.06" : String) = "18.06" :=
  format_filename_amended.2.2.2 "59.33" "18.06" "59.33" "18.06"
    (by decide) (by decide) (by decide) (by decide) rfl

/-- Everything a successful `processEntry` step guarantees: the result row
describes the entry, the non-timestamp fields survive, `last_pulled` is
stamped with the clock at entry, the status is one of the three values,
`last_changed` is stamped for `New` and `Changed` and untouched for
`Unchanged`, and the registry file is not written. -/
lemma processEntry_ok_spec {env : Env} {e : LocationEntry} {w : World}
    {r : UpdateResult} {e1 : LocationEntry} {w1 : World}
    (h : processEntry env e w = .ok (r, e1, w1)) :
    resultMatches e r ∧ entryPreserved e e1 ∧
    e1.last_pulled = some w.clock ∧
    (r.Status = "New" ∨ r.Status = "Changed" ∨ r.Status = "Unchanged") ∧
    ((r.Status = "New" ∨ r.Status = "Changed") → e1.last_changed = some (w.clock + 1)) ∧
    (r.Status = "Unchanged" → e1.last_changed = e.last_changed) ∧
    w1.registryFile = w.registryFile := by
  simp only [processEntry, download_image] at h
  cases hf : env.fetch e.lat e.long (e.zoom.getD 17) with
  | error u =>
    rw [hf] at h
    exact absurd h (by simp)
  | ok content =>
    rw [hf] at h
    dsimp only at h
    split at h
    · -- reference absent: status "New"
      simp only [Except.ok.injEq, Prod.mk.injEq] at h
      obtain ⟨rfl, rfl, rfl⟩ := h
      exact ⟨⟨rfl, rfl⟩, ⟨rfl, rfl, rfl, rfl⟩, rfl, Or.inl rfl, fun _ => rfl,
             fun hst => absurd (show ("New" : String) = "Unchanged" from hst) (by decide), rfl⟩
    · split at h
      · exact absurd h (by simp)
      · -- comparator reports a match: status "Unchanged"
        simp only [Except.ok.injEq, Prod.mk.injEq] at h
        obtain ⟨rfl, rfl, rfl⟩ := h
        refine ⟨⟨rfl, rfl⟩, ⟨rfl, rfl, rfl, rfl⟩, rfl, Or.inr (Or.inr rfl), ?_,
                fun _ => rfl, rfl⟩
        intro hst
        rcases hst with hst | hst
        · exact absurd (show ("Unchanged" : String) = "New" from hst) (by decide)
        · exact absurd (show ("Unchanged" : String) = "Changed" from hst) (by decide)
      · -- comparator reports a difference: status "Changed"
        simp only [Except.ok.injEq, Prod.mk.injEq] at h
        obtain ⟨rfl, rfl, rfl⟩ := h
        exact ⟨⟨rfl, rfl⟩, ⟨rfl, rfl, rfl, rfl⟩, rfl, Or.inr (Or.inl rfl), fun _ => rfl,
               fun hst => absurd (show ("Changed" : String) = "Unchanged" from hst) (by decide), rfl⟩

/-- A failing fetch makes `processEntry` raise, with the fetch attempt as
the only new effect. -/
lemma processEntry_fetch_error {env : Env} {e : LocationEntry} (w : World)
    (h : env.fetch e.lat e.long (e.zoom.getD 17) = .error ()) :
    processEntry env e w =
      .error { w with trace := w.trace ++ [Effect.fetchCall e.lat e.long (e.zoom.getD 17)] } := by
  simp only [processEntry, download_image]
  rw [h]

/-- Accumulated guarantees of a successful pass over a list of entries. -/
lemma processEntries_ok_spec {env : Env} :
    ∀ {l : List LocationEntry} {w : World} {rs : List UpdateResult}
      {es : List LocationEntry} {w1 : World},
      processEntries env l w = .ok (rs, es, w1) →
      rs.length = l.length ∧ List.Forall₂ resultMatches l rs ∧
        List.Forall₂ entryPreserved l es ∧ w1.registryFile = w.registryFile := by
  intro l
  induction l with
  | nil =>
    intro w rs es w1 h
    simp only [processEntries, Except.ok.injEq, Prod.mk.injEq] at h
    obtain ⟨rfl, rfl, rfl⟩ := h
    exact ⟨rfl, List.Forall₂.nil, List.Forall₂.nil, rfl⟩
  | cons e t ih =>
    intro w rs es w1 h
    simp only [processEntries] at h
    cases hp : processEntry env e w with
    | error w2 =>
      rw [hp] at h
      exact absurd h (by simp)
    | ok v =>
      obtain ⟨r, e1, w2⟩ := v
      rw [hp] at h
      dsimp only at h
      cases ht : processEntries env t w2 with
      | error w3 =>
        rw [ht] at h
        exact absurd h (by simp)
      | ok v2 =>
        obtain ⟨rs2, es2, w3⟩ := v2
        rw [ht] at h
        simp only [Except.ok.injEq, Prod.mk.injEq] at h
        obtain ⟨rfl, rfl, rfl⟩ := h
        obtain ⟨hm, hpres, _, _, _, _, hreg⟩ := processEntry_ok_spec hp
        obtain ⟨hlen, hf2, hf3, hreg2⟩ := ih ht
        exact ⟨by simp [hlen], List.Forall₂.cons hm hf2,
               List.Forall₂.cons hpres hf3, hreg2.trans hreg⟩

/-- A pass over a concatenation runs the first part, then the second from
the first's final state, aborting at the first raise. -/
lemma processEntries_append (env : Env) (l1 l2 : List LocationEntry) :
    ∀ w, processEntries env (l1 ++ l2) w =
      match processEntries env l1 w with
      | .error w1 => .error w1
      | .ok (rs1, es1, w1) =>
        match processEntries env l2 w1 with
        | .error w2 => .error w2
        | .ok (rs2, es2, w2) => .ok (rs1 ++ rs2, es1 ++ es2, w2) := by
  induction l1 with
  | nil =>
    intro w
    cases h2 : processEntries env l2 w with
    | error w2 => simp [processEntries, h2]
    | ok v2 => obtain ⟨rs2, es2, w2⟩ := v2; simp [processEntries, h2]
  | cons e t ih =>
    intro w
    show processEntries env (e :: (t ++ l2)) w = _
    simp only [processEntries]
    cases hp : processEntry env e w with
    | error w2 => simp
    | ok v =>
      obtain ⟨r, e1, w2⟩ := v
      simp only
      rw [ih w2]
      cases ht : processEntries env t w2 with
      | error w3 => simp
      | ok v2 =>
        obtain ⟨rs2, es2, w3⟩ := v2
        simp only
        cases h2 : processEntries env l2 w3 with
        | error w4 => simp
        | ok v3 => obtain ⟨rs3, es3, w4⟩ := v3; simp

/-- Inversion for a successful `update_images` pass on a present registry:
it is exactly a successful `processEntries` pass. -/
lemma update_images_some_ok {env : Env} {ms : List LocationEntry} {w : World}
    {rs : List UpdateResult} {oms : Option (List LocationEntry)} {w1 : World}
    (h : update_images env (some ms) w = .ok (rs, oms, w1)) :
    ∃ es, processEntries env ms w = .ok (rs, es, w1) ∧ oms = some es := by
  simp only [update_images] at h
  cases hp : processEntries env ms w with
  | error w2 =>
    rw [hp] at h
    exact absurd h (by simp)
  | ok v =>
    obtain ⟨rs2, es2, w2⟩ := v
    rw [hp] at h
    simp only [Except.ok.injEq, Prod.mk.injEq] at h
    obtain ⟨rfl, rfl, rfl⟩ := h
    exact ⟨es2, rfl, rfl⟩

example : processEntry envSame eLoc wSame = .ok (rUnch, eUnch, wUnch) := rfl

example : processEntry envSame eLoc wEmpty = .ok (rNew, eNew, wNew) := rfl

/-! ### C1: one result per location, in input order -/

/-- C1 counterexample: with every fetch succeeding (the fetch oracle of
`envShape` is a constant success; shown at the one pair of coordinates the
run requests), `update_images` still aborts with an exception instead of
returning one result for the single input location, because the stored
reference decodes to a 3×2×3 grid while the candidate decodes to 2×2×3 —
neither operand is a 1×1 Mat that OpenCV would broadcast as a scalar, so
`cv2.absdiff` raises — hence "no fetch fails" alone does not guarantee
one `UpdateResult` per location. -/
theorem update_images_results_counterexample :
    envShape.fetch eLoc.lat eLoc.long 17 = .ok bytesA ∧
    (update_images envShape (some [eLoc]) wDiff).isOk = false :=
  ⟨rfl, rfl⟩

/-- C1 amended: whenever the pass completes without an exception (fetch
failures and comparison errors both abort it), it returns exactly one
`UpdateResult` per input location, in input order, each row built from its
location's fields; and an absent (`None`) or empty metadata list yields an
empty result list with the world untouched — no fetches and no file
writes. -/
theorem update_images_results_amended :
    (∀ (env : Env) (w : World) (ms : List LocationEntry) rs oms w1,
        update_images env (some ms) w = .ok (rs, oms, w1) →
        rs.length = ms.length ∧ List.Forall₂ resultMatches ms rs) ∧
    (∀ (env : Env) (w : World), update_images env none w = .ok ([], none, w)) ∧
    (∀ (env : Env) (w : World), update_images env (some []) w = .ok ([], some [], w)) := by
  refine ⟨?_, fun env w => rfl, fun env w => rfl⟩
  intro env w ms rs oms w1 h
  obtain ⟨es, hp, _⟩ := update_images_some_ok h
  obtain ⟨hlen, hf, _, _⟩ := processEntries_ok_spec hp
  exact ⟨hlen, hf⟩

/-- Witness for C1's amended theorem at a concrete one-location run. -/
theorem update_images_results_amended_witness :
    [rUnch].length = [eLoc].length ∧ List.Forall₂ resultMatches [eLoc] [rUnch] :=
  update_images_results_amended.1 envSame wSame [eLoc] [rUnch] (some [eUnch]) wUnch rfl

/-! ### C3: when `last_changed` is stamped -/

/-- C3 counterexample: a location processed with no stored reference gets
result status `"New"` and nevertheless has its `last_changed` field set
(src/main.py:165 runs in the combined New/Changed branch), refuting the
claim that a `"New"` result leaves `last_changed` unmodified. -/
theorem last_changed_counterexample :
    processEntry envSame eLoc wEmpty = .ok (rNew, eNew, wNew) ∧
    rNew.Status = "New" ∧ eLoc.last_changed = none ∧ eNew.last_changed = some 1 :=
  ⟨rfl, rfl, rfl, rfl⟩

/-- C3 amended: `last_changed` is stamped with the current timestamp
exactly when the result status is `"New"` or `"Changed"`; only an
`"Unchanged"` result leaves it unmodified. -/
theorem last_changed_amended :
    ∀ (env : Env) (e : LocationEntry) (w : World) r e1 w1,
      processEntry env e w = .ok (r, e1, w1) →
      ((r.Status = "New" ∨ r.Status = "Changed") → e1.last_changed = some (w.clock + 1)) ∧
      (r.Status = "Unchanged" → e1.last_changed = e.last_changed) := by
  intro env e w r e1 w1 h
  obtain ⟨_, _, _, _, hc, hu, _⟩ := processEntry_ok_spec h
  exact ⟨hc, hu⟩

/-- Witness for C3's amended theorem at a concrete `Unchanged` run. -/
theorem last_changed_amended_witness : eUnch.last_changed = eLoc.last_changed :=
  (last_changed_amended envSame eLoc wSame rUnch eUnch wUnch rfl).2 rfl

/-! ### C5: a failing fetch aborts the whole run -/

/-- C5: if the fetch of some location fails after a prefix of locations
processed successfully, `update_images` raises immediately: the error
world carries only the effects of the prefix plus the one failing fetch
attempt (so no later location is fetched or written and no result list is
returned), `main` propagates the same exception, and the registry file is
never saved — its content is exactly what it was at the start of the run. -/
theorem update_images_fetch_error_aborts :
    ∀ (env : Env) (w : World) (pre : List LocationEntry) (e : LocationEntry)
      (post : List LocationEntry) rs es w1,
      processEntries env pre w = .ok (rs, es, w1) →
      env.fetch e.lat e.long (e.zoom.getD 17) = .error () →
      env.keyOk = true →
      w.registryFile = some (pre ++ e :: post) →
      update_images env (some (pre ++ e :: post)) w =
          .error { w1 with trace := w1.trace ++ [Effect.fetchCall e.lat e.long (e.zoom.getD 17)] } ∧
      main env w =
          .error { w1 with trace := w1.trace ++ [Effect.fetchCall e.lat e.long (e.zoom.getD 17)] } ∧
      ({ w1 with trace := w1.trace ++ [Effect.fetchCall e.lat e.long (e.zoom.getD 17)] } : World).registryFile
          = w.registryFile := by
  intro env w pre e post rs es w1 hpre hfail hkey hreg
  have hone : processEntries env (e :: post) w1 =
      .error { w1 with trace := w1.trace ++ [Effect.fetchCall e.lat e.long (e.zoom.getD 17)] } := by
    simp only [processEntries]
    rw [processEntry_fetch_error w1 hfail]
  have herr : processEntries env (pre ++ e :: post) w =
      .error { w1 with trace := w1.trace ++ [Effect.fetchCall e.lat e.long (e.zoom.getD 17)] } := by
    rw [processEntries_append env pre (e :: post) w, hpre]
    dsimp only
    rw [hone]
  have hupd : update_images env (some (pre ++ e :: post)) w =
      .error { w1 with trace := w1.trace ++ [Effect.fetchCall e.lat e.long (e.zoom.getD 17)] } := by
    simp only [update_images]
    rw [herr]
  have hregp : w1.registryFile = w.registryFile := (processEntries_ok_spec hpre).2.2.2
  refine ⟨hupd, ?_, hregp⟩
  simp only [main, hkey, if_true]
  rw [hreg]
  dsimp only
  rw [hupd]

/-- Witness for C5 at a concrete run whose only location's fetch fails. -/
theorem update_images_fetch_error_aborts_witness :
    main envFail wEmpty = .error { wEmpty with trace := [Effect.fetchCall "5" "6" 17] } :=
  (update_images_fetch_error_aborts envFail wEmpty [] eLoc [] [] [] wEmpty
    rfl rfl rfl rfl).2.1

/-! ### C6: when the registry file is saved -/

/-- C6 counterexample: a successful run whose only location's status is
`"Unchanged"` still produces a (non-empty) `updates` list, so `main` saves
the registry — the freshly stamped `last_pulled` is persisted even though
no location changed, refuting the claim that such timestamps are not
persisted in an all-`Unchanged` run. -/
theorem registry_saved_counterexample :
    update_images envSame (some [eLoc]) wSame = .ok ([rUnch], some [eUnch], wUnch) ∧
    rUnch.Status = "Unchanged" ∧ eLoc.last_pulled = none ∧ eUnch.last_pulled = some 0 ∧
    main envSame wSame = .ok { wUnch with registryFile := some [eUnch], htmlOutput := some [] } :=
  ⟨rfl, rfl, rfl, rfl, rfl⟩

/-- C6 amended: the registry is saved exactly when the `updates` list is
non-empty; since a successful pass yields one result per location
(whatever its status, `Unchanged` included), this means the registry — and
with it every freshly stamped `last_pulled` — is persisted whenever the
metadata list is non-empty and the run succeeds, and is left untouched
exactly when the metadata list is empty. -/
theorem registry_save_amended :
    ∀ (env : Env) (w : World) (ms : List LocationEntry) rs oms w1,
      env.keyOk = true → w.registryFile = some ms →
      update_images env (some ms) w = .ok (rs, oms, w1) →
      (rs = [] → main env w = .ok w1 ∧ w1.registryFile = w.registryFile) ∧
      (rs ≠ [] → main env w =
        .ok { w1 with registryFile := oms, htmlOutput := some (generate_html env w1 rs) }) ∧
      (rs = [] ↔ ms = []) := by
  intro env w ms rs oms w1 hkey hreg hupd
  obtain ⟨es, hp, rfl⟩ := update_images_some_ok hupd
  obtain ⟨hlen, _, _, hregp⟩ := processEntries_ok_spec hp
  have hiff : rs = [] ↔ ms = [] := by
    constructor
    · intro hrs
      exact List.length_eq_zero.mp (by rw [← hlen, hrs]; rfl)
    · intro hms
      exact List.length_eq_zero.mp (by rw [hlen, hms]; rfl)
  have hmain : main env w =
      (if rs.isEmpty then Except.ok w1
       else .ok { w1 with registryFile := some es,
                          htmlOutput := some (generate_html env w1 rs) }) := by
    simp only [main, hkey, if_true]
    rw [hreg]
    dsimp only
    rw [hupd]
  refine ⟨?_, ?_, hiff⟩
  · intro hrs
    rw [hrs] at hmain
    exact ⟨hmain, hregp⟩
  · intro hrs
    rwa [List.isEmpty_eq_false_iff_exists_mem.mpr ?_, if_neg (by simp)] at hmain
    · obtain ⟨x, t, rfl⟩ := List.exists_cons_of_ne_nil hrs
      exact ⟨x, List.mem_cons_self x t⟩

/-- Witness for C6's amended theorem at the all-`Unchanged` run. -/
theorem registry_save_amended_witness :
    main envSame wSame =
      .ok { wUnch with registryFile := some [eUnch],
                       htmlOutput := some (generate_html envSame wUnch [rUnch]) } :=
  ((registry_save_amended envSame wSame [eLoc] [rUnch] (some [eUnch]) wUnch
      rfl rfl rfl).2.1) (by simp)

/-! ### C7: the zoom used for the fetch -/

/-- C7 counterexample: a location whose registry record carries an
explicit zoom of `0` is fetched with zoom `0` (`entry.get("zoom", 17)`
only substitutes 17 for a missing key), not with the claimed default 17 —
the run's trace shows the request at zoom 0 and contains no request at
zoom 17. -/
theorem zoom_counterexample :
    eZoom0.zoom = some 0 ∧
    resultTrace (processEntry envSame eZoom0 wEmpty) =
      [Effect.fetchCall "5" "6" 0, Effect.fileWrite StoreDir.newDir "5_6.jpg",
       Effect.fileWrite StoreDir.oldDir "5_6.jpg"] ∧
    Effect.fetchCall "5" "6" 17 ∉ resultTrace (processEntry envSame eZoom0 wEmpty) :=
  ⟨rfl, rfl, by decide⟩

/-- C7 amended: every processing step issues its fetch with the location's
own zoom whenever the `zoom` key is present — including an explicit `0` —
and with the default 17 only when the key is absent; the fetch attempt is
the first effect the step appends to the trace. -/
theorem zoom_amended :
    ∀ (env : Env) (e : LocationEntry) (w : World), ∃ rest,
      resultTrace (processEntry env e w) =
        w.trace ++ Effect.fetchCall e.lat e.long
          (match e.zoom with | some z => z | none => 17) :: rest := by
  intro env e w
  have hz : (match e.zoom with | some z => z | none => 17) = e.zoom.getD 17 := by
    cases e.zoom <;> rfl
  rw [hz]
  simp only [processEntry, download_image]
  cases hf : env.fetch e.lat e.long (e.zoom.getD 17) with
  | error u =>
    exact ⟨[], by simp [resultTrace]⟩
  | ok content =>
    dsimp only
    rw [List.lookup_cons_self]
    dsimp only [Option.getD]
    cases hl : List.lookup (format_filename e.lat e.long) w.oldImages with
    | none =>
      exact ⟨[Effect.fileWrite StoreDir.newDir (format_filename e.lat e.long),
              Effect.fileWrite StoreDir.oldDir (format_filename e.lat e.long)],
             by simp [resultTrace]⟩
    | some oldBytes =>
      dsimp only
      cases hm : images_are_a_match (env.decode oldBytes) (env.decode content) with
      | error u =>
        exact ⟨[Effect.fileWrite StoreDir.newDir (format_filename e.lat e.long)],
               by simp [resultTrace, hm]⟩
      | ok b =>
        cases b with
        | true =>
          exact ⟨[Effect.fileWrite StoreDir.newDir (format_filename e.lat e.long)],
                 by simp [resultTrace, hm]⟩
        | false =>
          exact ⟨[Effect.fileWrite StoreDir.newDir (format_filename e.lat e.long),
                  Effect.fileWrite StoreDir.oldDir (format_filename e.lat e.long)],
                 by simp [resultTrace, hm]⟩

/-! ### C9: which entries the HTML report renders -/

/-- The Jinja condition resolves `entry.status` against a dict whose keys
are `Name`, `Location`, `Status`, `old_image`, `new_image` and the two
base64 keys — never `status` — so the lookup is always undefined. -/
lemma jinjaStatus_none (env : Env) (w : World) (r : UpdateResult) :
    jinjaStatus env w r = none := rfl

/-- C9: the generated report renders no `image-pair` section at all — for
any `updates` list, and in particular for a list containing an entry whose
status is `"Changed"` — because the template's condition reads the
lowercase `status` key while the result dicts only carry `Status`; the
claim that exactly the `"Changed"` entries are rendered describes the
intent, not the code. -/
theorem generate_html_renders_no_sections :
    (∀ (env : Env) (w : World) (updates : List UpdateResult),
        generate_html env w updates = []) ∧
    generate_html envSame wUnch [{ rUnch with Status := "Changed" }] = [] := by
  constructor
  · intro env w updates
    have h : updates.filter (fun r => jinjaStatus env w r == some "Changed") = [] :=
      List.filter_eq_nil_iff.mpr (fun a _ => by simp [jinjaStatus_none])
    simp [generate_html, h]
  · rfl

/-! ### C10: the pass preserves every other field of every entry -/

/-- C10: a successful `update_images` pass returns a metadata list that
corresponds entry-by-entry, in order, to the input: nothing is added,
removed or reordered, and each entry keeps its `lat`, `long`, `zoom` and
`name` (only the two timestamp fields may change). -/
theorem update_images_preserves_entries :
    ∀ (env : Env) (w : World) (ms : List LocationEntry) rs ms' w1,
      update_images env (some ms) w = .ok (rs, some ms', w1) →
      List.Forall₂ entryPreserved ms ms' := by
  intro env w ms rs ms' w1 h
  obtain ⟨es, hp, hsome⟩ := update_images_some_ok h
  obtain rfl : ms' = es := by
    simpa using hsome
  exact (processEntries_ok_spec hp).2.2.1

/-- Witness for C10 at a concrete one-location run. -/
theorem update_images_preserves_entries_witness :
    List.Forall₂ entryPreserved [eLoc] [eUnch] :=
  update_images_preserves_entries envSame wSame [eLoc] [rUnch] [eUnch] wUnch rfl

end MapsChecker

